import Mathlib

/-!
Shallow embedding of the ENI plugin engine (`src/plugins/eni/engine/engine.go`).

External collaborators (the EC2 instance-metadata client, the netlink wrapper
and the network-namespace wrapper) are modelled as oracles: each external call
site takes the value the collaborator would have returned (an `Except String α`,
possibly indexed by the attempt number or by the queried key, since the
metadata service and the kernel routing table are time-varying).  The engine
functions are translated statement by statement from the Go source; loops that
sleep between iterations additionally return the number of attempts made and
the number of sleeps performed, so that the retry/backoff behaviour is visible
in the model.  Go error wrapping (`errors.Wrap`/`Wrapf`, message + ": " +
cause) is modelled by string concatenation.
-/

/-- Model of Go error wrapping: `errors.Wrap(err, msg)` renders as
`msg ++ ": " ++ err`. -/
def wrapErr (msg e : String) : String := msg ++ ": " ++ e

/-- Constant from engine.go: the metadata path listing all interfaces. -/
def metadataNetworkInterfacesPath : String := "network/interfaces/macs/"

/-- Constant from engine.go: `zeroLengthIPString`, what `net.IP.String()`
returns for a zero-length IP. -/
def zeroLengthIPString : String := "<nil>"

/-- Constant from engine.go: `maxTicksForRetrievingIPV6Gateway`. -/
def maxTicksForRetrievingIPV6Gateway : Nat := 10

/-- Constant from engine.go: `instanceMetadataMaxRetryCount`. -/
def instanceMetadataMaxRetryCount : Nat := 20

/-- Model of Go `strings.Split(s, sep)` for a single-character separator,
on the underlying character list: splits around every occurrence of `sep`;
the result always has at least one group. -/
def splitOnChar (sep : Char) : List Char → List (List Char)
  | [] => [[]]
  | c :: rest =>
    if c = sep then [] :: splitOnChar sep rest
    else
      match splitOnChar sep rest with
      | [] => [[c]]
      | g :: gs => (c :: g) :: gs

/-- `strings.Split(s, "\n")` as used by the engine on metadata responses. -/
def splitLines (s : String) : List String :=
  (splitOnChar '\n' s.data).map List.asString

/-- `strings.Split(macAddress, "/")[0]`: everything before the first `/`
(the MACs returned by the metadata service end with a trailing `/`). -/
def stripSlash (macAddress : String) : String :=
  ((splitOnChar '/' macAddress.data).headD []).asString

/-- `GetAllMACAddresses` (engine.go lines 105-112): queries the interface
listing path once (no retry) and splits the response on newlines.  The single
metadata call is the oracle argument. -/
def GetAllMACAddresses (fetch : Except String String) : Except String (List String) :=
  match fetch with
  | .error e =>
    .error (wrapErr "getAllMACAddresses engine: unable to get all mac addresses on the instance from instance metadata" e)
  | .ok macs => .ok (splitLines macs)

/-- The message of the `UnmappedMACAddress` error built by `GetMACAddressOfENI`. -/
def unmappedMACAddressMsg (eniID : String) : String :=
  "mac address of ENI '" ++ eniID ++ "' not found"

/-- `GetMACAddressOfENI` (engine.go lines 115-131): scans the candidate MACs
in order; queries each candidate's interface-id (oracle indexed by the MAC);
a failed query is logged and skipped; the first candidate whose interface-id
equals `eniID` is returned with everything after the first `/` stripped;
otherwise an `UnmappedMACAddress` error.  Also returns the number of metadata
queries issued. -/
def GetMACAddressOfENI (oracle : String → Except String String) :
    List String → String → Except String String × Nat
  | [], eniID => (.error (unmappedMACAddressMsg eniID), 0)
  | macAddress :: rest, eniID =>
    match oracle macAddress with
    | .error _ =>
      let r := GetMACAddressOfENI oracle rest eniID
      (r.1, r.2 + 1)
    | .ok interfaceID =>
      if interfaceID = eniID then (.ok (stripSlash macAddress), 1)
      else
        let r := GetMACAddressOfENI oracle rest eniID
        (r.1, r.2 + 1)

/-- Model of Go `*net.IPNet` as seen by the engine: the engine only ever calls
`String()` on it, so it is represented by that rendering. -/
structure NetIPNet where
  render : String
deriving DecidableEq

/-- Model of Go `net.IP` as seen by the engine: the engine only ever calls
`String()` on it, so it is represented by that rendering; a zero-length IP
renders as `"<nil>"`. -/
structure NetIP where
  render : String
deriving DecidableEq

/-- Model of `netlink.Route` restricted to the fields the engine reads:
`Dst *net.IPNet` (nil-able), `Src net.IP`, `Gw net.IP`. -/
structure NetRoute where
  Dst : Option NetIPNet
  Src : NetIP
  Gw : NetIP
deriving DecidableEq

/-- `route.Dst.String()` including the nil-receiver case
(`(*net.IPNet)(nil).String()` returns `"<nil>"`). -/
def routeDstString (dst : Option NetIPNet) : String :=
  match dst with
  | none => zeroLengthIPString
  | some d => d.render

/-- The condition tested at engine.go lines 239-241 (after the `continue` at
line 235 has already skipped routes with a non-nil `Dst`): `Dst` not set,
`Src` not set, `Gw` set. -/
def isDefaultRouteGo (route : NetRoute) : Bool :=
  (route.Dst.isNone || routeDstString route.Dst == zeroLengthIPString)
    && route.Src.render == zeroLengthIPString
    && route.Gw.render != zeroLengthIPString

/-- The route scan of `getIPV6GatewayIPFromRoutesOnce` (engine.go lines
232-245): skip any route with non-nil `Dst`, return the gateway of the first
route passing `isDefaultRouteGo`. -/
def findGateway : List NetRoute → Option String
  | [] => none
  | route :: rest =>
    if route.Dst.isSome then findGateway rest
    else if isDefaultRouteGo route then some route.Gw.render
    else findGateway rest

/-- Variant of `findGateway` whose default-route condition omits the
`route.Dst.String() == zeroLengthIPString` disjunct: a route counts only when
`Dst` is exactly nil.  Used to show that disjunct is unreachable. -/
def findGatewayDstNilOnly : List NetRoute → Option String
  | [] => none
  | route :: rest =>
    if route.Dst.isSome then findGatewayDstNilOnly rest
    else if route.Src.render == zeroLengthIPString
        && route.Gw.render != zeroLengthIPString then some route.Gw.render
    else findGatewayDstNilOnly rest

/-- `getIPV6GatewayIPFromRoutesOnce` (engine.go lines 225-248): the route
listing (one `netlink.RouteList` call) is the oracle argument; a listing
failure is wrapped and returned; otherwise the first default route's gateway
(or `none`, Go's `("", false, nil)`). -/
def getIPV6GatewayIPFromRoutesOnce (routeList : Except String (List NetRoute))
    (deviceName : String) : Except String (Option String) :=
  match routeList with
  | .error e =>
    .error (wrapErr ("getIPV6Gateway engine: unable to get ipv6 routes for device '"
      ++ deviceName ++ "'") e)
  | .ok routes => .ok (findGateway routes)

/-- The message of the error returned when all gateway-retrieval ticks are
exhausted (engine.go lines 221-222). -/
def gatewayNotFoundMsg (deviceName : String) : String :=
  "getIPV6Gateway engine: unable to get gateway from route table for '"
    ++ deviceName ++ "'"

/-- The tick loop of `getIPV6GatewayIPFromRoutes` (engine.go lines 207-219).
`routesAt t` is what `netlink.RouteList` returns on tick `t` (ticks count from
0); `numTicks`/`sleeps` accumulate attempts made and sleeps performed; `fuel`
is the number of remaining iterations, i.e. `maxTicks - numTicks`, so the Go
loop guard `numTicks < maxTicks` is exactly `fuel > 0`.  Each iteration: one
attempt; a listing error returns immediately; a found gateway returns
immediately; otherwise `time.Sleep` runs (also on the final iteration) and the
loop continues.  Returns (result, attempts made, sleeps performed). -/
def gwLoopGo (routesAt : Nat → Except String (List NetRoute)) (deviceName : String) :
    Nat → Nat → Nat → Except String String × Nat × Nat
  | numTicks, sleeps, 0 => (.error (gatewayNotFoundMsg deviceName), numTicks, sleeps)
  | numTicks, sleeps, fuel + 1 =>
    match getIPV6GatewayIPFromRoutesOnce (routesAt numTicks) deviceName with
    | .error e => (.error e, numTicks + 1, sleeps)
    | .ok (some gateway) => (.ok gateway, numTicks + 1, sleeps)
    | .ok none => gwLoopGo routesAt deviceName (numTicks + 1) (sleeps + 1) fuel

/-- `getIPV6GatewayIPFromRoutes` (engine.go lines 200-223): run the tick loop
from tick 0 with `maxTicks` iterations available. -/
def getIPV6GatewayIPFromRoutes (routesAt : Nat → Except String (List NetRoute))
    (deviceName : String) (maxTicks : Nat) : Except String String × Nat × Nat :=
  gwLoopGo routesAt deviceName 0 0 maxTicks

/-- The retry loop of `doesMACAddressMapToIPAddress` (engine.go lines
279-297).  `oracle a` is what `metadata.GetMetadata` returns on attempt `a`
(attempts count from 1, as in the Go source); `sleeps` accumulates the
`time.Sleep` calls performed; `fuel` is the number of retries still permitted,
i.e. `metadataMaxRetryCount - attempt`, so the Go break condition
`attempts >= engine.metadataMaxRetryCount` is exactly `fuel = 0`.  A
successful query breaks immediately; a failed query breaks with that error
when no retries remain, else sleeps once and retries with the next attempt
number.  Returns (last result, attempts made, sleeps performed). -/
def metadataRetryGo (oracle : Nat → Except String String) :
    Nat → Nat → Nat → Except String String × Nat × Nat
  | attempt, sleeps, 0 =>
    match oracle attempt with
    | .ok response => (.ok response, attempt, sleeps)
    | .error e => (.error e, attempt, sleeps)
  | attempt, sleeps, fuel + 1 =>
    match oracle attempt with
    | .ok response => (.ok response, attempt, sleeps)
    | .error _ => metadataRetryGo oracle (attempt + 1) (sleeps + 1) fuel

/-- The metadata path queried by `doesMACAddressMapToIPAddress`. -/
def addressesPath (macAddress suffix : String) : String :=
  metadataNetworkInterfacesPath ++ macAddress ++ suffix

/-- `doesMACAddressMapToIPAddress` (engine.go lines 274-309): run the retry
loop starting from attempt 1 with `maxRetry - 1` retries permitted; wrap the
error if the loop ended in failure; otherwise split the response on newlines
and test membership of `addressToFind`.  Returns (result, attempts made,
sleeps performed). -/
def doesMACAddressMapToIPAddress (oracle : Nat → Except String String)
    (maxRetry : Nat) (macAddress addressToFind suffix : String) :
    Except String Bool × Nat × Nat :=
  match metadataRetryGo oracle 1 0 (maxRetry - 1) with
  | (.error e, attempts, sleeps) =>
    (.error (wrapErr ("querying metadata path: '" ++ addressesPath macAddress suffix ++ "'") e),
      attempts, sleeps)
  | (.ok response, attempts, sleeps) =>
    (.ok ((splitLines response).contains addressToFind), attempts, sleeps)

/-- The external call sites of `SetupContainerNamespace`, in source order:
`netLink.LinkByName`, `ns.GetNS`, `netLink.LinkSetNsFd` (the move),
`newSetupNamespaceClosureContext` (building the closure), and
`ns.WithNetNSPath` (executing the closure inside the namespace). -/
inductive NSStep where
  | linkByName
  | getNS
  | linkSetNsFd
  | buildClosure
  | execClosure
deriving DecidableEq, Repr

/-- The outcomes of the five external calls made by `SetupContainerNamespace`,
one oracle per call site. -/
structure SetupDeps where
  linkByName : Except String Unit
  getNS : Except String Unit
  linkSetNsFd : Except String Unit
  buildClosure : Except String Unit
  runClosure : Except String Unit

/-- `SetupContainerNamespace` (engine.go lines 314-358), translated step by
step: each external call either fails (wrap and return, later steps never
run) or succeeds (continue).  Besides the result, returns the exact sequence
of external calls performed; the source performs no call between a failing
step and its `return`, and none after `WithNetNSPath`, so in particular no
rollback of the move exists. -/
def SetupContainerNamespace (d : SetupDeps) (deviceName netns : String) :
    Except String Unit × List NSStep :=
  match d.linkByName with
  | .error e =>
    (.error (wrapErr ("setupContainerNamespace engine: unable to get link for device '"
      ++ deviceName ++ "'") e), [.linkByName])
  | .ok _ =>
    match d.getNS with
    | .error e =>
      (.error (wrapErr ("setupContainerNamespace engine: unable to get network namespace for '"
        ++ netns ++ "'") e), [.linkByName, .getNS])
    | .ok _ =>
      match d.linkSetNsFd with
      | .error e =>
        (.error (wrapErr ("setupContainerNamespace engine: unable to move device '"
          ++ deviceName ++ "' to container namespace '" ++ netns ++ "'") e),
          [.linkByName, .getNS, .linkSetNsFd])
      | .ok _ =>
        match d.buildClosure with
        | .error e =>
          (.error (wrapErr "setupContainerNamespace engine: unable to create closure to execute in container namespace" e),
            [.linkByName, .getNS, .linkSetNsFd, .buildClosure])
        | .ok _ =>
          match d.runClosure with
          | .error e =>
            (.error (wrapErr ("setupContainerNamespace engine: unable to setup device '"
              ++ deviceName ++ "' in namespace '" ++ netns ++ "'") e),
              [.linkByName, .getNS, .linkSetNsFd, .buildClosure, .execClosure])
          | .ok _ =>
            (.ok (), [.linkByName, .getNS, .linkSetNsFd, .buildClosure, .execClosure])

/-- Go `net` package constant `big` (0xFFFFFF), the overflow cutoff of the
decimal/hex digit readers. -/
def bigCutoff : Nat := 0xFFFFFF

/-- Worker for Go `net.dtoi`: reads a decimal prefix of `s`, `n` the value so
far, `i` the characters consumed so far.  Returns (value, consumed, ok); fails
on an empty digit run or when the value reaches the cutoff. -/
def dtoiAux : List Char → Nat → Nat → Nat × Nat × Bool
  | [], n, i => if i = 0 then (0, i, false) else (n, i, true)
  | c :: rest, n, i =>
    if 48 ≤ c.toNat ∧ c.toNat ≤ 57 then
      let n2 := n * 10 + (c.toNat - 48)
      if bigCutoff ≤ n2 then (0, i, false)
      else dtoiAux rest n2 (i + 1)
    else if i = 0 then (0, i, false) else (n, i, true)

/-- Go `net.dtoi(s, 0)`: decimal prefix of `s`. -/
def dtoi (s : List Char) : Nat × Nat × Bool := dtoiAux s 0 0

/-- Worker for Go `net.xtoi`: reads a hexadecimal prefix of `s` (digits,
`a`-`f`, `A`-`F`). -/
def xtoiAux : List Char → Nat → Nat → Nat × Nat × Bool
  | [], n, i => if i = 0 then (0, i, false) else (n, i, true)
  | c :: rest, n, i =>
    if 48 ≤ c.toNat ∧ c.toNat ≤ 57 then
      let n2 := n * 16 + (c.toNat - 48)
      if bigCutoff ≤ n2 then (0, i, false)
      else xtoiAux rest n2 (i + 1)
    else if 97 ≤ c.toNat ∧ c.toNat ≤ 102 then
      let n2 := n * 16 + (c.toNat - 97) + 10
      if bigCutoff ≤ n2 then (0, i, false)
      else xtoiAux rest n2 (i + 1)
    else if 65 ≤ c.toNat ∧ c.toNat ≤ 70 then
      let n2 := n * 16 + (c.toNat - 65) + 10
      if bigCutoff ≤ n2 then (0, i, false)
      else xtoiAux rest n2 (i + 1)
    else if i = 0 then (0, i, false) else (n, i, true)

/-- Go `net.xtoi(s, 0)`: hexadecimal prefix of `s`. -/
def xtoi (s : List Char) : Nat × Nat × Bool := xtoiAux s 0 0

/-- Worker for Go `net.parseIPv4`: parses the remaining `4 - acc.length`
dot-separated decimal octets (`acc` holds the octets parsed so far, newest
first; `acc = []` plays the role of Go's `i > 0` test for the leading dot). -/
def parseIPv4Aux : Nat → List Char → List Nat → Option (List Nat)
  | 0, s, acc => if s = [] then some acc.reverse else none
  | k + 1, s, acc =>
    if s = [] then none
    else
      let afterDot : Option (List Char) :=
        if acc = [] then some s
        else
          match s with
          | '.' :: rest => some rest
          | _ => none
      match afterDot with
      | none => none
      | some t =>
        match dtoi t with
        | (n, c, true) =>
          if 255 < n then none else parseIPv4Aux k (t.drop c) (n :: acc)
        | (_, _, false) => none

/-- Go `net.parseIPv4(s)`: four dot-separated decimal octets, nothing left
over.  Returns the four octet values, or `none` where Go returns a nil IP. -/
def parseIPv4Go (s : List Char) : Option (List Nat) := parseIPv4Aux 4 s []

/-- The epilogue of Go `net.parseIPv6`: fails if input remains; if fewer than
16 bytes were written, expands the `::` ellipsis (fails if there was none) by
shifting the bytes written after it to the end and zero-filling the gap; if
all 16 bytes were written, fails if an ellipsis was also present. -/
def ipv6Finish (s : List Char) (i : Nat) (ellipsis : Option Nat) (ip : List Nat) :
    Option (List Nat) :=
  if s ≠ [] then none
  else if i < 16 then
    match ellipsis with
    | none => none
    | some e => some (ip.take e ++ List.replicate (16 - i) 0 ++ (ip.drop e).take (i - e))
  else
    match ellipsis with
    | some _ => none
    | none => some ip

/-- The main loop of Go `net.parseIPv6` (zones disallowed): while fewer than
16 bytes are written, read a hex group; handle an embedded dotted IPv4 tail;
otherwise store the group, then consume `:` or record a `::` ellipsis.  `fuel`
bounds the iterations (each one advances `i` by at least 2, so 9 suffices
from `i = 0` and the 0-fuel branch is unreachable from `parseIPv6Go`). -/
def parseIPv6Loop : Nat → List Char → Nat → Option Nat → List Nat → Option (List Nat)
  | 0, _, _, _, _ => none
  | fuel + 1, s, i, ellipsis, ip =>
    if 16 ≤ i then ipv6Finish s i ellipsis ip
    else
      match xtoi s with
      | (_, _, false) => none
      | (n, c, true) =>
        if 65535 < n then none
        else if c < s.length ∧ (s.drop c).head? = some '.' then
          if (ellipsis = none ∧ i ≠ 12) ∨ 16 < i + 4 then none
          else
            match parseIPv4Go s with
            | none => none
            | some octets =>
              ipv6Finish [] (i + 4) ellipsis
                ((((ip.set i (octets.getD 0 0)).set (i + 1) (octets.getD 1 0)).set
                  (i + 2) (octets.getD 2 0)).set (i + 3) (octets.getD 3 0))
        else
          let ip2 := (ip.set i (n / 256)).set (i + 1) (n % 256)
          let s2 := s.drop c
          if s2 = [] then ipv6Finish [] (i + 2) ellipsis ip2
          else
            match s2 with
            | ':' :: rest2 =>
              (match rest2 with
              | [] => none
              | ':' :: rest3 =>
                if ellipsis.isSome then none
                else if rest3 = [] then ipv6Finish [] (i + 2) (some (i + 2)) ip2
                else parseIPv6Loop fuel rest3 (i + 2) (some (i + 2)) ip2
              | _ => parseIPv6Loop fuel rest2 (i + 2) ellipsis ip2)
            | _ => none

/-- Go `net.parseIPv6(s, false)`: returns the 16 bytes, or `none` where Go
returns a nil IP.  A leading `::` records the ellipsis at 0 (and `"::"` alone
is the all-zero address). -/
def parseIPv6Go (s : List Char) : Option (List Nat) :=
  match s with
  | ':' :: ':' :: rest =>
    if rest = [] then some (List.replicate 16 0)
    else parseIPv6Loop 9 rest 0 (some 0) (List.replicate 16 0)
  | _ => parseIPv6Loop 9 s 0 none (List.replicate 16 0)

/-- Go `byteIndex(s, '/')` followed by the split into `addr`/`mask`:
`none` when `s` contains no `/`. -/
def splitAtFirstSlash : List Char → Option (List Char × List Char)
  | [] => none
  | c :: rest =>
    if c = '/' then some ([], rest)
    else
      match splitAtFirstSlash rest with
      | none => none
      | some (a, b) => some (c :: a, b)

/-- Go `net.ParseCIDR(s)`, reduced to what the engine consumes: the prefix
bit count `n` (equal to `ipNet.Mask.Size()`'s ones count, since the mask is
`CIDRMask(n, 8*iplen)`).  Split at the first `/`; try the address part as
IPv4 then as IPv6; read the mask part as a full decimal number `n ≤ 8*iplen`.
`none` wherever Go returns a `ParseError`. -/
def parseCIDRGo (s : String) : Option Nat :=
  match splitAtFirstSlash s.data with
  | none => none
  | some (addr, mask) =>
    let v4 := parseIPv4Go addr
    let iplen : Nat := if v4.isSome then 4 else 16
    let ipOk : Bool := v4.isSome || (parseIPv6Go addr).isSome
    match dtoi mask with
    | (n, i, ok) =>
      if ¬ipOk ∨ ¬ok ∨ i ≠ mask.length ∨ 8 * iplen < n then none
      else some n

/-- The rendering of the Go `net.ParseError` produced for a bad CIDR. -/
def cidrParseErrorMsg (s : String) : String := "invalid CIDR address: " ++ s

/-- `getIPV6PrefixLength` (engine.go lines 175-185): parse the metadata CIDR
response; on failure wrap the parse error; on success render the prefix bit
count in decimal (`fmt.Sprintf("%d", maskOnes)`). -/
def getIPV6PrefixLength (cidrBlock : String) : Except String String :=
  match parseCIDRGo cidrBlock with
  | none =>
    .error (wrapErr ("getIPV6Netmask engine: unable to parse response for ipv6 cidr: '"
      ++ cidrBlock ++ "' from instance metadata") (cidrParseErrorMsg cidrBlock))
  | some maskOnes => .ok (toString maskOnes)

/-- The default-route criterion as the spec words it: destination prefix not
set (nil), source address not set (renders as `"<nil>"`), gateway address
non-empty (does not render as `"<nil>"`).  Stated independently of the
source's sentinel-string disjunct, for comparison with `findGateway`. -/
def specDefaultRoute (route : NetRoute) : Bool :=
  route.Dst.isNone
    && route.Src.render == zeroLengthIPString
    && route.Gw.render != zeroLengthIPString

theorem splitOnChar_ne_nil (sep : Char) (l : List Char) : splitOnChar sep l ≠ [] := by
  cases l with
  | nil => simp [splitOnChar]
  | cons c rest =>
    simp only [splitOnChar]
    split
    · simp
    · split <;> simp

theorem splitLines_ne_nil (s : String) : splitLines s ≠ [] := by
  have h := splitOnChar_ne_nil '\n' s.data
  simp [splitLines]
  intro hc
  exact h hc

theorem findGateway_eq_find (routes : List NetRoute) :
    findGateway routes = (routes.find? specDefaultRoute).map (fun route => route.Gw.render) := by
  induction routes with
  | nil => rfl
  | cons route rest ih =>
    cases hd : route.Dst with
    | some d =>
      simp [findGateway, List.find?, specDefaultRoute, hd, ih]
    | none =>
      simp only [findGateway, List.find?, specDefaultRoute, isDefaultRouteGo, hd,
        Option.isSome_none, Option.isNone_none, Bool.true_and, Bool.true_or, if_false,
        Bool.false_eq_true, ite_false, routeDstString]
      rcases hsrcgw : (route.Src.render == zeroLengthIPString && route.Gw.render != zeroLengthIPString) with _ | _
      · simp [hsrcgw, ih]
      · simp [hsrcgw]

theorem findGateway_eq_dstNilOnly (routes : List NetRoute) :
    findGateway routes = findGatewayDstNilOnly routes := by
  induction routes with
  | nil => rfl
  | cons route rest ih =>
    cases hd : route.Dst with
    | some d => simp [findGateway, findGatewayDstNilOnly, hd, ih]
    | none =>
      simp [findGateway, findGatewayDstNilOnly, isDefaultRouteGo, hd, ih]

theorem findGateway_some_mem (routes : List NetRoute) (gw : String)
    (h : findGateway routes = some gw) :
    ∃ route ∈ routes, route.Dst = none ∧ route.Gw.render = gw := by
  induction routes with
  | nil => simp [findGateway] at h
  | cons route rest ih =>
    cases hd : route.Dst with
    | some d =>
      rw [findGateway, if_pos (by simp [hd])] at h
      obtain ⟨r, hr, hprop⟩ := ih h
      exact ⟨r, List.mem_cons_of_mem _ hr, hprop⟩
    | none =>
      rw [findGateway, if_neg (by simp [hd])] at h
      by_cases hdef : isDefaultRouteGo route = true
      · rw [if_pos hdef] at h
        exact ⟨route, List.mem_cons_self _ _, hd, Option.some.inj h⟩
      · rw [if_neg hdef] at h
        obtain ⟨r, hr, hprop⟩ := ih h
        exact ⟨r, List.mem_cons_of_mem _ hr, hprop⟩

theorem gwLoopGo_no_match (routesAt : Nat → Except String (List NetRoute))
    (deviceName : String) :
    ∀ fuel numTicks sleeps,
      (∀ j, numTicks ≤ j → j < numTicks + fuel →
        ∃ l, routesAt j = .ok l ∧ findGateway l = none) →
      gwLoopGo routesAt deviceName numTicks sleeps fuel
        = (.error (gatewayNotFoundMsg deviceName), numTicks + fuel, sleeps + fuel) := by
  intro fuel
  induction fuel with
  | zero => intro numTicks sleeps _; simp [gwLoopGo]
  | succ f ih =>
    intro numTicks sleeps h
    obtain ⟨l, hok, hgw⟩ := h numTicks (Nat.le_refl _) (by omega)
    have step : gwLoopGo routesAt deviceName numTicks sleeps (f + 1)
        = gwLoopGo routesAt deviceName (numTicks + 1) (sleeps + 1) f := by
      simp [gwLoopGo, getIPV6GatewayIPFromRoutesOnce, hok, hgw]
    rw [step, ih (numTicks + 1) (sleeps + 1) (fun j hj1 hj2 => h j (by omega) (by omega))]
    have h1 : numTicks + 1 + f = numTicks + (f + 1) := by omega
    have h2 : sleeps + 1 + f = sleeps + (f + 1) := by omega
    rw [h1, h2]

theorem gwLoopGo_found (routesAt : Nat → Except String (List NetRoute))
    (deviceName : String) (k : Nat) (l : List NetRoute) (gw : String)
    (hk : routesAt k = .ok l) (hgw : findGateway l = some gw)
    (hbefore : ∀ j, j < k → ∃ l2, routesAt j = .ok l2 ∧ findGateway l2 = none) :
    ∀ fuel numTicks sleeps, numTicks ≤ k → k < numTicks + fuel →
      gwLoopGo routesAt deviceName numTicks sleeps fuel
        = (.ok gw, k + 1, sleeps + (k - numTicks)) := by
  intro fuel
  induction fuel with
  | zero => intro numTicks sleeps h1 h2; omega
  | succ f ih =>
    intro numTicks sleeps h1 h2
    rcases Nat.eq_or_lt_of_le h1 with heq | hlt
    · subst heq
      simp [gwLoopGo, getIPV6GatewayIPFromRoutesOnce, hk, hgw]
    · obtain ⟨l2, hok2, hgw2⟩ := hbefore numTicks hlt
      have step : gwLoopGo routesAt deviceName numTicks sleeps (f + 1)
          = gwLoopGo routesAt deviceName (numTicks + 1) (sleeps + 1) f := by
        simp [gwLoopGo, getIPV6GatewayIPFromRoutesOnce, hok2, hgw2]
      rw [step, ih (numTicks + 1) (sleeps + 1) (by omega) (by omega)]
      have : sleeps + 1 + (k - (numTicks + 1)) = sleeps + (k - numTicks) := by omega
      rw [this]

theorem gwLoopGo_listing_error (routesAt : Nat → Except String (List NetRoute))
    (deviceName : String) (k : Nat) (e : String)
    (hk : routesAt k = .error e)
    (hbefore : ∀ j, j < k → ∃ l2, routesAt j = .ok l2 ∧ findGateway l2 = none) :
    ∀ fuel numTicks sleeps, numTicks ≤ k → k < numTicks + fuel →
      gwLoopGo routesAt deviceName numTicks sleeps fuel
        = (.error (wrapErr ("getIPV6Gateway engine: unable to get ipv6 routes for device '"
            ++ deviceName ++ "'") e), k + 1, sleeps + (k - numTicks)) := by
  intro fuel
  induction fuel with
  | zero => intro numTicks sleeps h1 h2; omega
  | succ f ih =>
    intro numTicks sleeps h1 h2
    rcases Nat.eq_or_lt_of_le h1 with heq | hlt
    · subst heq
      simp [gwLoopGo, getIPV6GatewayIPFromRoutesOnce, hk]
    · obtain ⟨l2, hok2, hgw2⟩ := hbefore numTicks hlt
      have step : gwLoopGo routesAt deviceName numTicks sleeps (f + 1)
          = gwLoopGo routesAt deviceName (numTicks + 1) (sleeps + 1) f := by
        simp [gwLoopGo, getIPV6GatewayIPFromRoutesOnce, hok2, hgw2]
      rw [step, ih (numTicks + 1) (sleeps + 1) (by omega) (by omega)]
      have : sleeps + 1 + (k - (numTicks + 1)) = sleeps + (k - numTicks) := by omega
      rw [this]

theorem metadataRetryGo_success (oracle : Nat → Except String String) (k : Nat)
    (r : String) (hk : oracle k = .ok r)
    (hbefore : ∀ j, 1 ≤ j → j < k → ∃ e, oracle j = .error e) :
    ∀ fuel attempt sleeps, 1 ≤ attempt → attempt ≤ k → k ≤ attempt + fuel →
      metadataRetryGo oracle attempt sleeps fuel = (.ok r, k, sleeps + (k - attempt)) := by
  intro fuel
  induction fuel with
  | zero =>
    intro attempt sleeps h0 h1 h2
    have heq : attempt = k := by omega
    subst heq
    simp [metadataRetryGo, hk]
  | succ f ih =>
    intro attempt sleeps h0 h1 h2
    rcases Nat.eq_or_lt_of_le h1 with heq | hlt
    · subst heq
      simp [metadataRetryGo, hk]
    · obtain ⟨e, he⟩ := hbefore attempt h0 hlt
      have step : metadataRetryGo oracle attempt sleeps (f + 1)
          = metadataRetryGo oracle (attempt + 1) (sleeps + 1) f := by
        simp [metadataRetryGo, he]
      rw [step, ih (attempt + 1) (sleeps + 1) (by omega) (by omega) (by omega)]
      have : sleeps + 1 + (k - (attempt + 1)) = sleeps + (k - attempt) := by omega
      rw [this]

theorem metadataRetryGo_exhausted (oracle : Nat → Except String String) :
    ∀ fuel attempt sleeps e,
      (∀ j, attempt ≤ j → j ≤ attempt + fuel → ∃ e2, oracle j = .error e2) →
      oracle (attempt + fuel) = .error e →
      metadataRetryGo oracle attempt sleeps fuel = (.error e, attempt + fuel, sleeps + fuel) := by
  intro fuel
  induction fuel with
  | zero =>
    intro attempt sleeps e _ hlast
    rw [Nat.add_zero] at hlast
    simp [metadataRetryGo, hlast]
  | succ f ih =>
    intro attempt sleeps e h hlast
    obtain ⟨e0, he0⟩ := h attempt (Nat.le_refl _) (by omega)
    have step : metadataRetryGo oracle attempt sleeps (f + 1)
        = metadataRetryGo oracle (attempt + 1) (sleeps + 1) f := by
      simp [metadataRetryGo, he0]
    rw [step, ih (attempt + 1) (sleeps + 1) e
      (fun j hj1 hj2 => h j (by omega) (by omega)) (by rw [← hlast]; congr 1; omega)]
    have h1 : attempt + 1 + f = attempt + (f + 1) := by omega
    have h2 : sleeps + 1 + f = sleeps + (f + 1) := by omega
    rw [h1, h2]

theorem GetMACAddressOfENI_spec (oracle : String → Except String String)
    (macs : List String) (eniID : String) :
    (GetMACAddressOfENI oracle macs eniID).2 ≤ macs.length ∧
    (GetMACAddressOfENI oracle macs eniID).1
      = (match macs.find? (fun m =>
            match oracle m with
            | .ok interfaceID => interfaceID == eniID
            | .error _ => false) with
         | some mac => .ok (stripSlash mac)
         | none => .error (unmappedMACAddressMsg eniID)) := by
  induction macs with
  | nil => exact ⟨Nat.le_refl _, rfl⟩
  | cons mac rest ih =>
    obtain ⟨ih1, ih2⟩ := ih
    cases ho : oracle mac with
    | error e =>
      refine ⟨?_, ?_⟩
      · simp only [GetMACAddressOfENI, ho, List.length_cons]
        omega
      · simp only [GetMACAddressOfENI, ho, List.find?]
        exact ih2
    | ok interfaceID =>
      by_cases hid : interfaceID = eniID
      · refine ⟨?_, ?_⟩
        · simp only [GetMACAddressOfENI, ho, List.length_cons, if_pos hid]
          omega
        · subst hid
          simp [GetMACAddressOfENI, ho, List.find?]
      · refine ⟨?_, ?_⟩
        · simp only [GetMACAddressOfENI, ho, List.length_cons, if_neg hid]
          omega
        · simp only [GetMACAddressOfENI, ho, List.find?, if_neg hid]
          have hbeq : (interfaceID == eniID) = false := by simp [hid]
          rw [hbeq]
          exact ih2

/-- C1 (amended): for every device with no default route present on any tick,
the IPv6 gateway polling loop issues exactly `maxTicks` route-table attempts
and fails with a GatewayNotFound-style error naming the device; it sleeps
`tickInterval` after every unsuccessful attempt, including the final one, for
`maxTicks` sleeps in total (the source's loop body ends in an unconditional
`time.Sleep`, so the claimed absence of a sleep after the final attempt does
not hold). -/
theorem C1_gateway_polling_exhausts_ticks
    (routesAt : Nat → Except String (List NetRoute)) (deviceName : String) (maxTicks : Nat)
    (h : ∀ j, j < maxTicks → ∃ l, routesAt j = .ok l ∧ findGateway l = none) :
    getIPV6GatewayIPFromRoutes routesAt deviceName maxTicks
      = (.error (gatewayNotFoundMsg deviceName), maxTicks, maxTicks) := by
  have hloop := gwLoopGo_no_match routesAt deviceName maxTicks 0 0
    (fun j _ hj2 => h j (by omega))
  simpa [getIPV6GatewayIPFromRoutes] using hloop

/-- Witness for C1: a route table that is always empty exhausts all 3 ticks
with 3 attempts and 3 sleeps. -/
theorem C1_gateway_polling_exhausts_ticks_witness :
    getIPV6GatewayIPFromRoutes (fun _ => .ok []) "eth0" 3
      = (.error (gatewayNotFoundMsg "eth0"), 3, 3) :=
  C1_gateway_polling_exhausts_ticks (fun _ => .ok []) "eth0" 3
    (fun _ _ => ⟨[], rfl, rfl⟩)

/-- C1 counterexample: with the default 10 ticks and a route table that never
holds a default route, the loop performs 10 sleeps — not the 9 that "sleeps
between consecutive attempts but no sleep after the final attempt" would
give. -/
theorem C1_no_sleep_after_final_attempt_counterexample :
    (getIPV6GatewayIPFromRoutes (fun _ => .ok []) "eth1"
        maxTicksForRetrievingIPV6Gateway).2.2 = maxTicksForRetrievingIPV6Gateway ∧
    ¬ ((getIPV6GatewayIPFromRoutes (fun _ => .ok []) "eth1"
        maxTicksForRetrievingIPV6Gateway).2.2 = maxTicksForRetrievingIPV6Gateway - 1) := by
  constructor
  · rfl
  · intro hcontra
    exact absurd (rfl.symm.trans hcontra) (by decide)

/-- C2: if the `LinkSetNsFd` move step of `SetupContainerNamespace` fails, the
in-namespace closure is never executed and the call returns the wrapped
namespace-move error; if the closure-execution step fails after the move
succeeded, the call returns the wrapped namespace-execution error and the
performed call sequence ends at the closure execution — the move is in the
trace and no rollback step exists between it and the return. -/
theorem C2_setup_failure_semantics (d : SetupDeps) (deviceName netns : String) :
    (∀ e, d.linkByName = .ok () → d.getNS = .ok () → d.linkSetNsFd = .error e →
      SetupContainerNamespace d deviceName netns
        = (.error (wrapErr ("setupContainerNamespace engine: unable to move device '"
            ++ deviceName ++ "' to container namespace '" ++ netns ++ "'") e),
           [.linkByName, .getNS, .linkSetNsFd]) ∧
      NSStep.execClosure ∉ (SetupContainerNamespace d deviceName netns).2) ∧
    (∀ e, d.linkByName = .ok () → d.getNS = .ok () → d.linkSetNsFd = .ok () →
      d.buildClosure = .ok () → d.runClosure = .error e →
      SetupContainerNamespace d deviceName netns
        = (.error (wrapErr ("setupContainerNamespace engine: unable to setup device '"
            ++ deviceName ++ "' in namespace '" ++ netns ++ "'") e),
           [.linkByName, .getNS, .linkSetNsFd, .buildClosure, .execClosure])) := by
  constructor
  · intro e h1 h2 h3
    refine ⟨?_, ?_⟩
    · simp only [SetupContainerNamespace, h1, h2, h3]
    · simp only [SetupContainerNamespace, h1, h2, h3]
      decide
  · intro e h1 h2 h3 h4 h5
    simp only [SetupContainerNamespace, h1, h2, h3, h4, h5]

/-- Witness for C2: a failing move never reaches the closure; a failing
closure run leaves the full five-step trace ending at the execution step. -/
theorem C2_setup_failure_semantics_witness :
    SetupContainerNamespace ⟨.ok (), .ok (), .error "device busy", .ok (), .ok ()⟩
        "eth3" "/proc/1234/ns/net"
      = (.error (wrapErr "setupContainerNamespace engine: unable to move device 'eth3' to container namespace '/proc/1234/ns/net'" "device busy"),
         [.linkByName, .getNS, .linkSetNsFd]) ∧
    NSStep.execClosure ∉ (SetupContainerNamespace
        ⟨.ok (), .ok (), .error "device busy", .ok (), .ok ()⟩
        "eth3" "/proc/1234/ns/net").2 ∧
    SetupContainerNamespace ⟨.ok (), .ok (), .ok (), .ok (), .error "closure failed"⟩
        "eth3" "/proc/1234/ns/net"
      = (.error (wrapErr "setupContainerNamespace engine: unable to setup device 'eth3' in namespace '/proc/1234/ns/net'" "closure failed"),
         [.linkByName, .getNS, .linkSetNsFd, .buildClosure, .execClosure]) :=
  ⟨((C2_setup_failure_semantics _ "eth3" "/proc/1234/ns/net").1 "device busy" rfl rfl rfl).1,
   ((C2_setup_failure_semantics _ "eth3" "/proc/1234/ns/net").1 "device busy" rfl rfl rfl).2,
   (C2_setup_failure_semantics _ "eth3" "/proc/1234/ns/net").2 "closure failed" rfl rfl rfl rfl rfl⟩

/-- C3: the secondary-address check retries a failed metadata query up to the
configured maximum attempt count with a sleep between attempts (attempts made
is one more than sleeps performed); it succeeds on the first attempt `k` (up
to and including the final permitted one) whose query returns a response, and
then returns true iff the target address equals one of the newline-separated
lines of that response; it fails only after all `maxRetry` attempts are
exhausted, returning the last attempt's error wrapped with the queried
path. -/
theorem C3_secondary_address_retry (oracle : Nat → Except String String)
    (maxRetry : Nat) (macAddress addressToFind suffix : String)
    (hmax : 1 ≤ maxRetry) :
    (∀ k r, 1 ≤ k → k ≤ maxRetry →
      (∀ j, 1 ≤ j → j < k → ∃ e, oracle j = .error e) → oracle k = .ok r →
      doesMACAddressMapToIPAddress oracle maxRetry macAddress addressToFind suffix
        = (.ok ((splitLines r).contains addressToFind), k, k - 1)) ∧
    (∀ e, (∀ j, 1 ≤ j → j ≤ maxRetry → ∃ e2, oracle j = .error e2) →
      oracle maxRetry = .error e →
      doesMACAddressMapToIPAddress oracle maxRetry macAddress addressToFind suffix
        = (.error (wrapErr ("querying metadata path: '" ++ addressesPath macAddress suffix ++ "'") e),
           maxRetry, maxRetry - 1)) := by
  have hM : 1 + (maxRetry - 1) = maxRetry := by omega
  constructor
  · intro k r hk1 hk2 hbefore hok
    have hloop := metadataRetryGo_success oracle k r hok hbefore (maxRetry - 1) 1 0
      (Nat.le_refl _) hk1 (by omega)
    rw [Nat.zero_add] at hloop
    simp only [doesMACAddressMapToIPAddress, hloop]
  · intro e hall hlast
    have hloop := metadataRetryGo_exhausted oracle (maxRetry - 1) 1 0 e
      (fun j hj1 hj2 => hall j hj1 (by omega))
      (by rw [hM]; exact hlast)
    rw [Nat.zero_add, hM] at hloop
    simp only [doesMACAddressMapToIPAddress, hloop]

/-- Witness for C3: with the default 20 permitted attempts and metadata that
becomes available on attempt 2, the check makes 2 attempts, 1 sleep, and
finds the address among the response lines. -/
theorem C3_secondary_address_retry_witness :
    doesMACAddressMapToIPAddress
        (fun a => if a < 2 then .error "unavailable" else .ok "10.0.0.5\n10.0.0.6")
        instanceMetadataMaxRetryCount "aa:bb/" "10.0.0.6" "/local-ipv4s"
      = (.ok true, 2, 1) :=
  (C3_secondary_address_retry
      (fun a => if a < 2 then .error "unavailable" else .ok "10.0.0.5\n10.0.0.6")
      instanceMetadataMaxRetryCount "aa:bb/" "10.0.0.6" "/local-ipv4s"
      (by decide)).1 2 "10.0.0.5\n10.0.0.6" (by decide) (by decide)
    (fun j hj1 hj2 => ⟨"unavailable", by
      have hj : j = 1 := by omega
      subst hj
      rfl⟩) rfl

/-- C4: for a non-empty candidate MAC list, `GetMACAddressOfENI` issues at
most one interface-id query per candidate (total queries bounded by the list
length), skips candidates whose query fails, and returns the first candidate
whose interface-id equals the ENI id, stripped of everything from the first
`/`; if no candidate matches it fails with the `UnmappedMACAddress` message
naming the ENI id. -/
theorem C4_eni_to_mac_resolution (oracle : String → Except String String)
    (macs : List String) (eniID : String) (_hne : macs ≠ []) :
    (GetMACAddressOfENI oracle macs eniID).2 ≤ macs.length ∧
    (GetMACAddressOfENI oracle macs eniID).1
      = (match macs.find? (fun m =>
            match oracle m with
            | .ok interfaceID => interfaceID == eniID
            | .error _ => false) with
         | some mac => .ok (stripSlash mac)
         | none => .error (unmappedMACAddressMsg eniID)) :=
  GetMACAddressOfENI_spec oracle macs eniID

/-- Witness for C4: the first candidate fails its query and is skipped, the
second matches and is returned with the trailing separator stripped, within
the query bound. -/
theorem C4_eni_to_mac_resolution_witness :
    (GetMACAddressOfENI (fun m => if m = "aa/" then .error "query failed" else .ok "eni-7")
        ["aa/", "bb/", "cc/"] "eni-7").2 ≤ 3 ∧
    (GetMACAddressOfENI (fun m => if m = "aa/" then .error "query failed" else .ok "eni-7")
        ["aa/", "bb/", "cc/"] "eni-7").1 = .ok "bb" := by
  have h := C4_eni_to_mac_resolution
    (fun m => if m = "aa/" then .error "query failed" else .ok "eni-7")
    ["aa/", "bb/", "cc/"] "eni-7" (by simp)
  exact ⟨h.1, by rw [h.2]; rfl⟩

/-- C5: a route qualifies as the default route exactly when its destination
prefix is not set, its source address is not set and its gateway address is
non-empty (the scan equals `find?` with that predicate, returning the first
such route's gateway), and the first tick whose listing contains such a route
makes the polling loop return that gateway immediately: attempts stop at that
tick and the sleeps performed are only those of the earlier unsuccessful
ticks. -/
theorem C5_default_route_short_circuit :
    (∀ routes : List NetRoute,
      findGateway routes
        = (routes.find? specDefaultRoute).map (fun route => route.Gw.render)) ∧
    (∀ (routesAt : Nat → Except String (List NetRoute)) (deviceName : String)
        (maxTicks k : Nat) (l : List NetRoute) (gw : String),
      routesAt k = .ok l → findGateway l = some gw → k < maxTicks →
      (∀ j, j < k → ∃ l2, routesAt j = .ok l2 ∧ findGateway l2 = none) →
      getIPV6GatewayIPFromRoutes routesAt deviceName maxTicks = (.ok gw, k + 1, k)) := by
  constructor
  · exact findGateway_eq_find
  · intro routesAt deviceName maxTicks k l gw hk hgw hkm hbefore
    have hloop := gwLoopGo_found routesAt deviceName k l gw hk hgw hbefore maxTicks 0 0
      (Nat.zero_le _) (by omega)
    simpa [getIPV6GatewayIPFromRoutes] using hloop

/-- Witness for C5: a qualifying route first appears on tick 2 (0-based), so
the loop stops after 3 attempts and 2 sleeps with that route's gateway. -/
theorem C5_default_route_short_circuit_witness :
    findGateway [⟨none, ⟨"<nil>"⟩, ⟨"fe80::1"⟩⟩]
      = ((([⟨none, ⟨"<nil>"⟩, ⟨"fe80::1"⟩⟩] : List NetRoute).find? specDefaultRoute).map
          (fun route => route.Gw.render)) ∧
    getIPV6GatewayIPFromRoutes
        (fun t => if t = 2 then .ok [⟨none, ⟨"<nil>"⟩, ⟨"fe80::1"⟩⟩] else .ok [])
        "eth0" 10
      = (.ok "fe80::1", 3, 2) :=
  ⟨C5_default_route_short_circuit.1 _,
   C5_default_route_short_circuit.2 _ "eth0" 10 2 _ "fe80::1" rfl rfl (by omega)
     (fun j hj => ⟨[], by
        have h2 : ¬ (j = 2) := by omega
        simp [h2], rfl⟩)⟩

/-- C6: if the route-table listing fails on tick `k` (after ticks without a
default route), the polling operation returns that wrapped error from tick
`k` itself: `k + 1` attempts were made (no further ticks) and only the `k`
earlier sleeps were performed (no further sleeps). -/
theorem C6_listing_error_aborts_polling
    (routesAt : Nat → Except String (List NetRoute)) (deviceName : String)
    (maxTicks k : Nat) (e : String)
    (hk : routesAt k = .error e) (hkmax : k < maxTicks)
    (hbefore : ∀ j, j < k → ∃ l, routesAt j = .ok l ∧ findGateway l = none) :
    getIPV6GatewayIPFromRoutes routesAt deviceName maxTicks
      = (.error (wrapErr ("getIPV6Gateway engine: unable to get ipv6 routes for device '"
          ++ deviceName ++ "'") e), k + 1, k) := by
  have hloop := gwLoopGo_listing_error routesAt deviceName k e hk hbefore maxTicks 0 0
    (Nat.zero_le _) (by omega)
  simpa [getIPV6GatewayIPFromRoutes] using hloop

/-- Witness for C6: a listing failure on tick 1 of 10 stops the loop after 2
attempts and 1 sleep with the wrapped kernel error. -/
theorem C6_listing_error_aborts_polling_witness :
    getIPV6GatewayIPFromRoutes
        (fun t => if t = 1 then .error "kernel fault" else .ok []) "eth2" 10
      = (.error (wrapErr "getIPV6Gateway engine: unable to get ipv6 routes for device 'eth2'" "kernel fault"),
         2, 1) :=
  C6_listing_error_aborts_polling
    (fun t => if t = 1 then .error "kernel fault" else .ok []) "eth2" 10 1 "kernel fault"
    rfl (by omega)
    (fun j hj => ⟨[], by
      have h0 : j = 0 := by omega
      subst h0
      rfl, rfl⟩)

/-- C7: the IPv6 prefix-length computation returns the CIDR prefix bit count
rendered as a decimal string — `"2001:db8::/64"` gives `"64"` — and on any
input that the CIDR parser rejects (such as `"not-a-cidr"`) it fails with the
parse error wrapped in the engine's message. -/
theorem C7_ipv6_prefix_length :
    getIPV6PrefixLength "2001:db8::/64" = .ok "64" ∧
    getIPV6PrefixLength "not-a-cidr"
      = .error (wrapErr "getIPV6Netmask engine: unable to parse response for ipv6 cidr: 'not-a-cidr' from instance metadata"
          (cidrParseErrorMsg "not-a-cidr")) ∧
    (∀ s n, parseCIDRGo s = some n → getIPV6PrefixLength s = .ok (toString n)) ∧
    (∀ s, parseCIDRGo s = none →
      getIPV6PrefixLength s
        = .error (wrapErr ("getIPV6Netmask engine: unable to parse response for ipv6 cidr: '"
            ++ s ++ "' from instance metadata") (cidrParseErrorMsg s))) := by
  refine ⟨rfl, rfl, ?_, ?_⟩
  · intro s n h
    simp [getIPV6PrefixLength, h]
  · intro s h
    simp [getIPV6PrefixLength, h]

/-- Witness for C7: another valid IPv6 CIDR evaluates through the parser to
its decimal prefix length. -/
theorem C7_ipv6_prefix_length_witness :
    getIPV6PrefixLength "2001:db8:abcd::/56" = .ok "56" :=
  C7_ipv6_prefix_length.2.2.1 "2001:db8:abcd::/56" 56 rfl

/-- C8: every route with a non-nil destination is skipped before the
sentinel-string checks (the scan is unchanged when the
`Dst.String() == "<nil>"` disjunct is removed, and a cons with non-nil `Dst`
reduces to the scan of the tail), and a gateway is only ever returned from a
route whose destination is exactly nil. -/
theorem C8_sentinel_dst_disjunct_unreachable :
    (∀ routes : List NetRoute, findGateway routes = findGatewayDstNilOnly routes) ∧
    (∀ (route : NetRoute) (rest : List NetRoute), route.Dst.isSome = true →
      findGateway (route :: rest) = findGateway rest) ∧
    (∀ (routes : List NetRoute) (gw : String), findGateway routes = some gw →
      ∃ route ∈ routes, route.Dst = none ∧ route.Gw.render = gw) := by
  refine ⟨findGateway_eq_dstNilOnly, ?_, findGateway_some_mem⟩
  intro route rest h
  simp [findGateway, h]

/-- Witness for C8: a route whose destination is a non-nil value rendering as
`"<nil>"` (with unset source and set gateway) is skipped, and the only
returned gateways come from nil-destination routes. -/
theorem C8_sentinel_dst_disjunct_unreachable_witness :
    findGateway [⟨some ⟨"<nil>"⟩, ⟨"<nil>"⟩, ⟨"fe80::1"⟩⟩] = findGateway [] ∧
    (∃ route ∈ ([⟨none, ⟨"<nil>"⟩, ⟨"fe80::2"⟩⟩] : List NetRoute),
      route.Dst = none ∧ route.Gw.render = "fe80::2") :=
  ⟨C8_sentinel_dst_disjunct_unreachable.2.1 ⟨some ⟨"<nil>"⟩, ⟨"<nil>"⟩, ⟨"fe80::1"⟩⟩ [] rfl,
   C8_sentinel_dst_disjunct_unreachable.2.2 [⟨none, ⟨"<nil>"⟩, ⟨"fe80::2"⟩⟩] "fe80::2" rfl⟩

/-- C9: `GetMACAddressOfENI` on an empty candidate list fails with the
`UnmappedMACAddress` message naming the ENI id and issues zero metadata
queries. -/
theorem C9_empty_candidate_list (oracle : String → Except String String) (eniID : String) :
    GetMACAddressOfENI oracle [] eniID = (.error (unmappedMACAddressMsg eniID), 0) := rfl

/-- C10: whenever the metadata query succeeds, `GetAllMACAddresses` returns
the newline-split of the response, which always has at least one element; a
successful empty-string response yields the one-element list containing the
empty string. -/
theorem C10_get_all_macs_split :
    (∀ s, GetAllMACAddresses (.ok s) = .ok (splitLines s)) ∧
    (∀ s, 1 ≤ (splitLines s).length) ∧
    GetAllMACAddresses (.ok "") = .ok [""] := by
  refine ⟨fun _ => rfl, fun s => ?_, rfl⟩
  exact List.length_pos.mpr (splitLines_ne_nil s)
